import Mathlib

/-!
Verification development for the creator-chatbot retrieval core.

The Python sources are shallowly embedded: text is represented as
`List Char`, provider and backend calls become explicit outcome
parameters (`Except` values or oracles), and every effectful call that a
claim mentions is made visible either as an input or as an emitted
event.  Inputs in the repository are ASCII, so Python's `\w`, `\s` and
`str.lower` are embedded by their ASCII behaviour.
-/

namespace TextUtil

/-- Whitespace class of Python's regular expressions and `str.split` /
`str.strip` (space, tab, newline, carriage return, vertical tab, form
feed). -/
def pySpace (c : Char) : Bool :=
  c = ' ' || c = '\t' || c = '\n' || c = '\r' || c = '\x0b' || c = '\x0c'

/-- Word character class of Python's regex `\w` (ASCII fragment). -/
def wordChar (c : Char) : Bool :=
  c.isAlphanum || c = '_'

/-- Lowercasing of a text, Python `str.lower` on ASCII. -/
def lowerStr (cs : List Char) : List Char :=
  cs.map Char.toLower

/-- Python `str.strip`: drop leading and trailing whitespace. -/
def stripChars (cs : List Char) : List Char :=
  ((cs.dropWhile pySpace).reverse.dropWhile pySpace).reverse

/-- Python `str.split()` with no separator: whitespace-run-separated
words, empties dropped. -/
def splitWsAux : List Char → List Char → List (List Char)
  | [], acc => if acc = [] then [] else [acc.reverse]
  | c :: rest, acc =>
    if pySpace c then
      if acc = [] then splitWsAux rest [] else acc.reverse :: splitWsAux rest []
    else splitWsAux rest (c :: acc)

/-- Words of a text, Python `text.split()`. -/
def splitWs (cs : List Char) : List (List Char) :=
  splitWsAux cs []

/-- Python `" ".join(words)`. -/
def joinSpace : List (List Char) → List Char
  | [] => []
  | [w] => w
  | w :: ws => w ++ ' ' :: joinSpace ws

/-- Substring test, Python `pat in hay` on strings. -/
def containsSub : List Char → List Char → Bool
  | hay, pat =>
    pat.isPrefixOf hay ||
      match hay with
      | [] => false
      | _ :: t => containsSub t pat

end TextUtil

namespace Chunking

open TextUtil

/-- Character allow-list of SmartChunker._clean_text: word characters,
whitespace, and the punctuation class kept by the second regex. -/
def allowedChar (c : Char) : Bool :=
  wordChar c || pySpace c ||
    c = '.' || c = ',' || c = '!' || c = '?' || c = ';' || c = ':' ||
    c = '(' || c = ')' || c = '-' || c = '"'

/-- Collapse every whitespace run to a single space,
Python `re.sub(r'\s+', ' ', text)`. -/
def collapseWsAux : List Char → Bool → List Char
  | [], _ => []
  | c :: rest, prevWs =>
    if pySpace c then
      if prevWs then collapseWsAux rest true else ' ' :: collapseWsAux rest true
    else c :: collapseWsAux rest false

/-- SmartChunker._clean_text: collapse whitespace, drop characters
outside the allow-list, strip. -/
def clean_text (cs : List Char) : List Char :=
  stripChars ((collapseWsAux cs false).filter allowedChar)

/-- Sentence-ending punctuation class of the split regex. -/
def sentPunct (c : Char) : Bool :=
  c = '.' || c = '!' || c = '?'

/-- Splitter for `re.split(r'[.!?]+\s+', text)`: a maximal run of
sentence punctuation immediately followed by whitespace is a delimiter
(punctuation run and whitespace run both consumed); punctuation not
followed by whitespace stays inside the token.  `pend` holds the
pending (reversed) punctuation run, `acc` the reversed current token
without it, and `inDelim` is true while the delimiter's whitespace run
is still being consumed (the token before it has been emitted). -/
def splitSentAux : List Char → List Char → List Char → Bool → List (List Char)
  | [], _, _, true => [[]]
  | [], pend, acc, false => [(pend ++ acc).reverse]
  | c :: rest, pend, acc, inDelim =>
    if inDelim then
      if pySpace c then splitSentAux rest [] [] true
      else if sentPunct c then splitSentAux rest [c] [] false
      else splitSentAux rest [] [c] false
    else if sentPunct c then splitSentAux rest (c :: pend) acc false
    else if pySpace c ∧ pend ≠ [] then
      acc.reverse :: splitSentAux rest [] [] true
    else splitSentAux rest [] (c :: (pend ++ acc)) false

/-- SmartChunker._split_into_sentences: regex split, then split each
piece on literal line breaks, strip, and keep the non-empty results. -/
def split_into_sentences (cs : List Char) : List (List Char) :=
  ((splitSentAux cs [] [] false).map
    (fun tok => ((tok.splitOn '\n').map stripChars).filter (· ≠ []))).flatten

/-- Backward word-accumulation loop of SmartChunker._get_overlap_text:
`ws` is the reversed word list, `acc` the words taken so far (in
original order), `cc` the running character count. -/
def overlapWordsAux : List (List Char) → List (List Char) → Nat → Nat → List (List Char)
  | [], acc, _, _ => acc
  | w :: rest, acc, cc, osz =>
    if cc + w.length + 1 ≤ osz then overlapWordsAux rest (w :: acc) (cc + w.length + 1) osz
    else acc

/-- SmartChunker._get_overlap_text: the whole text when it already fits
in the overlap budget, otherwise the longest word suffix whose running
count stays within the budget. -/
def get_overlap_text (text : List Char) (overlap_size : Nat) : List Char :=
  if text.length ≤ overlap_size then text
  else joinSpace (overlapWordsAux (splitWs text).reverse [] 0 overlap_size)

/-- Accumulation loop of SmartChunker._create_semantic_chunks.  A
sentence joins the current chunk while the joined length stays within
`sz`; otherwise the current chunk is closed (stripped) and the next one
is seeded with the overlap suffix of the closed chunk (only when some
chunk exists and `ov > 0`). -/
def createChunksAux (sz ov : Nat) :
    List (List Char) → List (List Char) → List Char → List (List Char)
  | [], chunks, current =>
    if current ≠ [] then chunks ++ [stripChars current] else chunks
  | s :: rest, chunks, current =>
    let potential := if current = [] then s else current ++ ' ' :: s
    if potential.length ≤ sz then createChunksAux sz ov rest chunks potential
    else
      let chunks2 := if current ≠ [] then chunks ++ [stripChars current] else chunks
      let current2 :=
        if chunks2 ≠ [] ∧ 0 < ov then get_overlap_text current ov ++ ' ' :: s
        else s
      createChunksAux sz ov rest chunks2 current2

/-- SmartChunker._create_semantic_chunks. -/
def create_semantic_chunks (sz ov : Nat) (sentences : List (List Char)) : List (List Char) :=
  createChunksAux sz ov sentences [] []

/-- Chunk record built by SmartChunker.chunk_text. -/
structure ChunkObj where
  content : List Char
  chunk_id : List Char
  source : List Char
  chunk_index : Nat
  word_count : Nat
  character_count : Nat
deriving DecidableEq

/-- Metadata attachment loop of SmartChunker.chunk_text (the
`enumerate` loop); the id is the Python f-string
source + "_chunk_" + index. -/
def chunkObjsAux (source : List Char) : Nat → List (List Char) → List ChunkObj
  | _, [] => []
  | i, c :: rest =>
    { content := c
      chunk_id := source ++ ("_chunk_").toList ++ (Nat.repr i).toList
      source := source
      chunk_index := i
      word_count := (splitWs c).length
      character_count := c.length } :: chunkObjsAux source (i + 1) rest

/-- SmartChunker.chunk_text: clean, split into sentences, chunk, and
attach metadata. -/
def chunk_text (sz ov : Nat) (text source : List Char) : List ChunkObj :=
  chunkObjsAux source 0 (create_semantic_chunks sz ov (split_into_sentences (clean_text text)))

end Chunking

namespace Embeddings

open TextUtil

/-- Rate-limit detection of GeminiEmbedder.embed_text: the provider
error's message contains the substring 429. -/
def isRateLimit (e : List Char) : Bool :=
  containsSub e (("429").toList)

instance instDecEqExcept {ε α : Type} [DecidableEq ε] [DecidableEq α] :
    DecidableEq (Except ε α) := fun a b =>
  match a, b with
  | Except.error e, Except.error f =>
    if h : e = f then isTrue (by rw [h]) else
      isFalse (fun hc => h (Except.error.injEq .. ▸ hc))
  | Except.error _, Except.ok _ => isFalse (fun hc => Except.noConfusion hc)
  | Except.ok _, Except.error _ => isFalse (fun hc => Except.noConfusion hc)
  | Except.ok v, Except.ok w =>
    if h : v = w then isTrue (by rw [h]) else
      isFalse (fun hc => h (Except.ok.injEq .. ▸ hc))

/-- Outcome record of one embed_text call: the returned value or raised
error, the sleep durations performed between attempts, and the number
of provider calls made. -/
structure EmbedOutcome where
  result : Option (Except (List Char) (List ℚ))
  sleeps : List Nat
  calls : Nat
deriving DecidableEq

/-- Retry loop of GeminiEmbedder.embed_text
(`for attempt in range(max_retries)` with max_retries = 3,
retry_delay starting at 2 and doubled after each rate-limited attempt).
The provider is an oracle from attempt index to response; a `none`
result models the unreachable fall-through after the loop. -/
def embedGo (oracle : Nat → Except (List Char) (List ℚ)) :
    List Nat → Nat → List Nat → Nat → EmbedOutcome
  | [], _, sleeps, calls => { result := none, sleeps := sleeps.reverse, calls := calls }
  | a :: rest, delay, sleeps, calls =>
    match oracle a with
    | Except.ok v =>
      { result := some (Except.ok v), sleeps := sleeps.reverse, calls := calls + 1 }
    | Except.error e =>
      if isRateLimit e = true ∧ a < 3 - 1 then
        embedGo oracle rest (delay * 2) (delay :: sleeps) (calls + 1)
      else
        { result := some (Except.error e), sleeps := sleeps.reverse, calls := calls + 1 }

/-- Validation message of GeminiEmbedder.embed_text for blank input. -/
def emptyTextError : List Char :=
  ("Empty or whitespace-only text cannot be embedded").toList

/-- GeminiEmbedder.embed_text on a string input: reject empty or
whitespace-only text before any provider call, otherwise run the retry
loop.  (A dict input has its content field extracted first and behaves
like the extracted string; the lazily recorded embedding dimension does
not affect control flow and is omitted.) -/
def embed_text (text : List Char) (oracle : Nat → Except (List Char) (List ℚ)) :
    EmbedOutcome :=
  if stripChars text = [] then
    { result := some (Except.error emptyTextError), sleeps := [], calls := 0 }
  else
    embedGo oracle [0, 1, 2] 2 [] 0

end Embeddings

namespace SrcQA

open TextUtil

/-- Complexity labels of src/query_analyzer.py (QueryComplexity). -/
inductive QueryComplexity where
  | simple
  | medium
  | complex
deriving DecidableEq

/-- Word-bounded occurrence test at the head of `cs`: the pattern is a
prefix and the character right after it (if any) is not a word
character. -/
def boundedHere (pat cs : List Char) : Bool :=
  pat.isPrefixOf cs &&
    (match cs.drop pat.length with
     | [] => true
     | d :: _ => !wordChar d)

/-- Count of word-bounded occurrences of `pat`; `prev` is the character
before the scan position.  For the patterns counted here (and, aur) —
which begin and end in word characters — this equals the number of
regex matches found by re.findall with word-boundary anchors. -/
def boundedCountAux (pat : List Char) : Option Char → List Char → Nat
  | _, [] => 0
  | prev, c :: rest =>
    (if (match prev with
         | none => true
         | some p => !wordChar p) && boundedHere pat (c :: rest) then 1 else 0)
      + boundedCountAux pat (some c) rest

def boundedCount (cs pat : List Char) : Nat :=
  boundedCountAux pat none cs

/-- Count of question marks, re.findall of a question mark. -/
def question_count (q : List Char) : Nat :=
  (q.filter (· = '?')).length

/-- Count of conjunctions, re.findall of word-bounded and or aur. -/
def and_count (q : List Char) : Nat :=
  boundedCount q (("and").toList) + boundedCount q (("aur").toList)

/-- Count of clause-separating punctuation, re.findall of comma or
semicolon. -/
def concept_count (q : List Char) : Nat :=
  (q.filter (fun c => c = ',' || c = ';')).length

/-- Word count, len(query.split()). -/
def word_count (q : List Char) : Nat :=
  (splitWs q).length

/-- QueryAnalyzer._determine_complexity of src/query_analyzer.py
(applied by analyze_query to the lowercased query). -/
def determine_complexity (q : List Char) : QueryComplexity :=
  if 1 < question_count q ∨ 1 < and_count q ∨ 1 < concept_count q ∨ 20 < word_count q then
    QueryComplexity.complex
  else if question_count q = 1 ∨ and_count q = 1 ∨ concept_count q = 1 ∨ 10 < word_count q then
    QueryComplexity.medium
  else
    QueryComplexity.simple

end SrcQA

namespace VectorStore

/-- Chunk metadata as stored by CreatorVectorStore.add_chunks_to_collection. -/
structure Metadata where
  source : List Char
  chunk_index : Nat
  word_count : Nat
  creator_id : String
  creator_name : List Char
  creator_specialty : List Char
deriving DecidableEq

instance : Inhabited Metadata :=
  ⟨{ source := [], chunk_index := 0, word_count := 0, creator_id := ""
     creator_name := [], creator_specialty := [] }⟩

/-- One stored record of a creator collection (id, embedding, document
text, metadata). -/
structure StoreEntry where
  entry_id : List Char
  embedding : List ℚ
  document : List Char
  metadata : Metadata
deriving DecidableEq

/-- The ChromaDB-backed store: collections held per creator id. -/
structure CreatorVectorStore where
  collections : List (String × List StoreEntry)
deriving DecidableEq

/-- Collection lookup, the `creator_id not in self.collections` test. -/
def lookupCollection (store : CreatorVectorStore) (creator_id : String) :
    Option (List StoreEntry) :=
  (store.collections.find? (fun p => p.1 = creator_id)).map (fun p => p.2)

/-- Squared L2 distance, the default ChromaDB metric, over ℚ. -/
def sqDist (u v : List ℚ) : ℚ :=
  (List.zipWith (fun a b => (a - b) * (a - b)) u v).sum

/-- Nested-list result shape of a ChromaDB query (one inner list per
query embedding); the unknown-creator branch of search_creator returns
the flat empty lists instead. -/
structure SearchResult where
  documents : List (List (List Char))
  metadatas : List (List Metadata)
  distances : List (List ℚ)
deriving DecidableEq

/-- Insert an entry into a distance-ordered list, keeping ascending
order of distance to the query vector. -/
def insertByDist (q : List ℚ) (e : StoreEntry) : List StoreEntry → List StoreEntry
  | [] => [e]
  | x :: xs =>
    if sqDist q e.embedding ≤ sqDist q x.embedding then e :: x :: xs
    else x :: insertByDist q e xs

/-- Order the entries of a collection by ascending distance to the
query vector. -/
def sortByDist (q : List ℚ) : List StoreEntry → List StoreEntry
  | [] => []
  | e :: es => insertByDist q e (sortByDist q es)

/-- Modelled from the spec: the ChromaDB `collection.query`
nearest-neighbor call (external vector-database backend, not part of
this repository) answers with the stored entries ordered by ascending
distance to the query embedding, at most n_results of them, fewer when
the collection is smaller. -/
def backendQuery (entries : List StoreEntry) (query_embedding : List ℚ)
    (n_results : Nat) : SearchResult :=
  let top := (sortByDist query_embedding entries).take n_results
  { documents := [top.map (fun e => e.document)]
    metadatas := [top.map (fun e => e.metadata)]
    distances := [top.map (fun e => sqDist query_embedding e.embedding)] }

/-- CreatorVectorStore.search_creator: flat empty result for an unknown
creator (no error), otherwise the backend nearest-neighbor query on the
creator's collection. -/
def search_creator (store : CreatorVectorStore) (creator_id : String)
    (query_embedding : List ℚ) (n_results : Nat) : SearchResult :=
  match lookupCollection store creator_id with
  | none => { documents := [], metadatas := [], distances := [] }
  | some entries => backendQuery entries query_embedding n_results

end VectorStore

namespace SimpleRetrieval

open TextUtil

/-- One result chunk assembled by IntelligentRetriever.retrieve_context
of src/retrieval.py. -/
structure SimpleChunk where
  content : List Char
  creator_id : String
  similarity : ℚ
  source : List Char
deriving DecidableEq

/-- Return value of the simple retrieve_context. -/
structure SimpleResult where
  retrieval_strategy : String
  total_chunks : Nat
  chunks : List SimpleChunk
  best_creator : Option String
deriving DecidableEq

/-- IntelligentRetriever._analyze_query of src/retrieval.py: substring
heuristics producing a list of type tags. -/
def analyze_query_types (query : List Char) : List String :=
  let ql := lowerStr query
  let t1 : List String :=
    if (["what", "how", "why", "when", "where", "which"].any
        (fun w => containsSub ql w.toList)) then ["specific"] else []
  let t2 : List String :=
    if containsSub ql (("how").toList) && containsSub ql (("to").toList) then
      t1 ++ ["how_to"]
    else t1
  let t3 : List String := if t2 = [] then ["general"] else t2
  if 10 < (splitWs query).length then t3 ++ ["complex"] else t3 ++ ["simple"]

/-- Exception translation of the `except` clause in retrieve_context
(lines 104–111 of src/retrieval.py): the caught error is re-raised
with a message chosen by substring tests. -/
def translate_error (e : List Char) : List Char :=
  if containsSub e (("429").toList) then
    ("Rate limit exceeded. Please wait a moment and try again.").toList
  else if containsSub (lowerStr e) (("embedding").toList) then
    ("Unable to process your query. Please try rephrasing it.").toList
  else
    ("An error occurred while retrieving context. Please try again.").toList

/-- Result-processing loop of the simple retrieve_context: one chunk
per document of the first inner list, similarity 1 - distance, source
from the metadata (or defaults when the store returned no
distance/metadata lists). -/
def process_results (creator_id : String) (r : VectorStore.SearchResult) :
    List SimpleChunk :=
  match r.documents with
  | [] => []
  | docs0 :: _ =>
    (List.range docs0.length).map (fun i =>
      { content := docs0.getD i []
        creator_id := creator_id
        similarity := 1 - (match r.distances with
          | [] => 0
          | d0 :: _ => d0.getD i 0)
        source := match r.metadatas with
          | [] => ("unknown").toList
          | m0 :: _ => (m0.getD i default).source })

/-- IntelligentRetriever.retrieve_context of src/retrieval.py.  The
rate-limit sleep only delays and is omitted; the embedding call and the
store search are the two fallible steps inside the `try` block, passed
here as outcomes.  Any raised error is re-raised translated by the
`except` clause, so a failed embedding fails the whole call. -/
def retrieve_context (query : List Char) (creator_id : String)
    (embedOutcome : Except (List Char) (List ℚ))
    (searchOutcome : Except (List Char) VectorStore.SearchResult) :
    Except (List Char) SimpleResult :=
  let query_type := analyze_query_types query
  match embedOutcome with
  | Except.error e => Except.error (translate_error e)
  | Except.ok _ =>
    let strategy :=
      if ("specific" : String) ∈ query_type then "focused_search"
      else if ("how_to" : String) ∈ query_type then "focused_search"
      else "balanced_search"
    match searchOutcome with
    | Except.error e => Except.error (translate_error e)
    | Except.ok results =>
      let chunks := process_results creator_id results
      Except.ok
        { retrieval_strategy := strategy
          total_chunks := chunks.length
          chunks := chunks
          best_creator := if chunks = [] then none else some creator_id }

end SimpleRetrieval

namespace Scalable

open TextUtil

/-- QueryIntent of scalable_chatbot/shared/models.py. -/
inductive QueryIntent where
  | greeting
  | question
  | how_to
  | personal_info
  | inappropriate
deriving DecidableEq

/-- QueryComplexity of scalable_chatbot/shared/models.py. -/
inductive QueryComplexity where
  | simple
  | complex
deriving DecidableEq

/-- QueryAnalysis of scalable_chatbot/shared/models.py. -/
structure QueryAnalysis where
  intent : QueryIntent
  complexity : QueryComplexity
  is_greeting : Bool
  is_inappropriate : Bool
  is_step_by_step : Bool
  confidence : ℚ
deriving DecidableEq

/-- RetrievalRequest of scalable_chatbot/shared/models.py, with its
declared defaults. -/
structure RetrievalRequest where
  query : List Char
  creator_id : String
  max_chunks : Nat := 5
  similarity_threshold : ℚ := 7 / 10
deriving DecidableEq

/-- ContextChunk of scalable_chatbot/shared/models.py. -/
structure ContextChunk where
  content : List Char
  source : List Char
  similarity : ℚ
  creator_id : String
  metadata : List (List Char × List Char) := []
deriving DecidableEq

/-- RetrievalResponse of scalable_chatbot/shared/models.py. -/
structure RetrievalResponse where
  chunks : List ContextChunk
  total_chunks : Nat
  creator_id : String
  retrieval_strategy : String
deriving DecidableEq

/-- Greeting allow-list of QueryAnalyzer._fallback_analysis. -/
def greetingTokens : List (List Char) :=
  [("hi").toList, ("hello").toList, ("hey").toList, ("namaste").toList, ("hola").toList]

/-- Denylist of QueryAnalyzer._fallback_analysis. -/
def inappropriateKeywords : List (List Char) :=
  [("sex").toList, ("porn").toList, ("adult").toList, ("nsfw").toList]

/-- QueryAnalyzer._fallback_analysis of
scalable_chatbot/retrieval_service/retrieval.py: substring heuristics
on the lowercased query. -/
def fallback_analysis (query : List Char) : QueryAnalysis :=
  let ql := lowerStr query
  let is_greeting := greetingTokens.any (fun g => containsSub ql g)
  let is_step_by_step :=
    containsSub ql (("how to").toList) || containsSub ql (("steps").toList)
  let is_inappropriate := inappropriateKeywords.any (fun k => containsSub ql k)
  let intent :=
    if is_greeting then QueryIntent.greeting
    else if is_inappropriate then QueryIntent.inappropriate
    else if is_step_by_step then QueryIntent.how_to
    else QueryIntent.question
  let complexity :=
    if 10 < (splitWs query).length then QueryComplexity.complex
    else QueryComplexity.simple
  { intent := intent
    complexity := complexity
    is_greeting := is_greeting
    is_inappropriate := is_inappropriate
    is_step_by_step := is_step_by_step
    confidence := 7 / 10 }

/-- IntelligentRetriever._determine_strategy of
scalable_chatbot/retrieval_service/retrieval.py (the request argument
is unused by the source body). -/
def determine_strategy (analysis : QueryAnalysis) (_req : RetrievalRequest) : String :=
  if analysis.complexity = QueryComplexity.complex then "comprehensive"
  else if analysis.intent = QueryIntent.how_to then "focused"
  else if analysis.is_step_by_step = true then "structured"
  else "balanced"

/-- One raw item of a Weaviate query result; every field is read with a
default (`item.get`) by the result-processing loop. -/
structure WeaviateItem where
  content : Option (List Char)
  source : Option (List Char)
  certainty : Option ℚ
  metadata : Option (List (List Char × List Char))
deriving DecidableEq

/-- The nearest-vector query built by _execute_retrieval (lines
278–292): the similarity threshold is passed to the backend as the
certainty bound, the creator filter and the result limit are attached. -/
structure WeaviateQuery where
  vector : List ℚ
  certainty : ℚ
  creator_filter : String
  limit : Nat
  additional : List String
deriving DecidableEq

/-- Default source label used by _execute_retrieval for an item with no
source field. -/
def unknownSource : List Char :=
  ("unknown").toList

/-- Query construction of _execute_retrieval. -/
def build_query (query_embedding : List ℚ) (creator_id : String)
    (max_chunks : Nat) (similarity_threshold : ℚ) : WeaviateQuery :=
  { vector := query_embedding
    certainty := similarity_threshold
    creator_filter := creator_id
    limit := max_chunks
    additional := ["certainty", "distance"] }

/-- IntelligentRetriever._execute_retrieval: a failed backend query is
caught and becomes an empty chunk list; each returned item is kept only
when its certainty (default 0 when missing) reaches the threshold
again. -/
def execute_retrieval (creator_id : String)
    (queryOutcome : Except (List Char) (List WeaviateItem))
    (similarity_threshold : ℚ) : List ContextChunk :=
  match queryOutcome with
  | Except.error _ => []
  | Except.ok items =>
    items.filterMap (fun item =>
      let certainty := item.certainty.getD 0
      if similarity_threshold ≤ certainty then
        some { content := item.content.getD []
               source := item.source.getD unknownSource
               similarity := certainty
               creator_id := creator_id
               metadata := item.metadata.getD [] }
      else none)

/-- Effectful calls visible to a claim about the retrieve path. -/
inductive RetEvent where
  | embedCall
  | searchCall
deriving DecidableEq

/-- Body of IntelligentRetriever.retrieve_context (the `try` block):
short-circuit on greeting or inappropriate analyses before any
embedding call; a failed embedding raises out of the body; otherwise
select the strategy and execute the retrieval.  The event list records
the embedding call and the store search that were performed. -/
def retrieve_body (req : RetrievalRequest) (analysis : QueryAnalysis)
    (embedOutcome : Except (List Char) (List ℚ))
    (searchOutcome : Except (List Char) (List WeaviateItem)) :
    Except (List Char) RetrievalResponse × List RetEvent :=
  if analysis.is_greeting || analysis.is_inappropriate then
    (Except.ok { chunks := [], total_chunks := 0, creator_id := req.creator_id
                 retrieval_strategy := "skip" }, [])
  else
    match embedOutcome with
    | Except.error e => (Except.error e, [RetEvent.embedCall])
    | Except.ok _ =>
      let strategy := determine_strategy analysis req
      let chunks := execute_retrieval req.creator_id searchOutcome req.similarity_threshold
      (Except.ok { chunks := chunks, total_chunks := chunks.length
                   creator_id := req.creator_id, retrieval_strategy := strategy },
        [RetEvent.embedCall, RetEvent.searchCall])

/-- IntelligentRetriever.retrieve_context of
scalable_chatbot/retrieval_service/retrieval.py: the body wrapped in
the `except` clause of lines 246–253, which catches every raised error
and returns a normal response with no chunks and strategy error — so
the function never propagates a failure. -/
def retrieve_context (req : RetrievalRequest) (analysis : QueryAnalysis)
    (embedOutcome : Except (List Char) (List ℚ))
    (searchOutcome : Except (List Char) (List WeaviateItem)) :
    Except (List Char) RetrievalResponse × List RetEvent :=
  match retrieve_body req analysis embedOutcome searchOutcome with
  | (Except.ok resp, evs) => (Except.ok resp, evs)
  | (Except.error _, evs) =>
    (Except.ok { chunks := [], total_chunks := 0, creator_id := req.creator_id
                 retrieval_strategy := "error" }, evs)

end Scalable

/-- Two-entry sample collection used to exercise the store claims on a
concrete input. -/
def sampleEntries : List VectorStore.StoreEntry :=
  [{ entry_id := ("s_chunk_0").toList, embedding := [1, 0]
     document := ("first doc").toList, metadata := default },
   { entry_id := ("s_chunk_1").toList, embedding := [0, 1]
     document := ("second doc").toList, metadata := default }]

/-- Sample store holding the sample collection for one creator. -/
def sampleStore : VectorStore.CreatorVectorStore :=
  { collections := [("hawa_singh", sampleEntries)] }

namespace TextUtil

theorem isPrefixOf_iff_exists (p l : List Char) :
    p.isPrefixOf l = true ↔ ∃ t, l = p ++ t := by
  induction p generalizing l with
  | nil => simp [List.isPrefixOf]
  | cons a p ih =>
    cases l with
    | nil => simp [List.isPrefixOf]
    | cons b l =>
      simp only [List.isPrefixOf, Bool.and_eq_true, beq_iff_eq, ih, List.cons_append,
        List.cons.injEq]
      constructor
      · rintro ⟨rfl, t, rfl⟩
        exact ⟨t, rfl, rfl⟩
      · rintro ⟨t, rfl, rfl⟩
        exact ⟨rfl, t, rfl⟩

theorem containsSub_iff (hay pat : List Char) :
    containsSub hay pat = true ↔ ∃ u v, hay = u ++ pat ++ v := by
  induction hay with
  | nil =>
    rw [containsSub]
    simp [isPrefixOf_iff_exists]
  | cons c t ih =>
    rw [containsSub]
    simp only [Bool.or_eq_true, isPrefixOf_iff_exists, ih]
    constructor
    · rintro (⟨v, h⟩ | ⟨u, v, h⟩)
      · exact ⟨[], v, by simpa using h⟩
      · exact ⟨c :: u, v, by simp [h]⟩
    · rintro ⟨u, v, h⟩
      cases u with
      | nil =>
        exact Or.inl ⟨v, by simpa using h⟩
      | cons x u =>
        rcases List.cons.injEq .. ▸ h with ⟨rfl, h2⟩
        exact Or.inr ⟨u, v, h2⟩

theorem length_stripChars_le (cs : List Char) :
    (stripChars cs).length ≤ cs.length := by
  unfold stripChars
  calc ((cs.dropWhile pySpace).reverse.dropWhile pySpace).reverse.length
      = ((cs.dropWhile pySpace).reverse.dropWhile pySpace).length := by
        rw [List.length_reverse]
    _ ≤ (cs.dropWhile pySpace).reverse.length :=
        (List.dropWhile_suffix pySpace).sublist.length_le
    _ = (cs.dropWhile pySpace).length := by rw [List.length_reverse]
    _ ≤ cs.length := (List.dropWhile_suffix pySpace).sublist.length_le

end TextUtil

namespace Chunking

open TextUtil

theorem content_mem_of_mem_chunkObjsAux {source : List Char} :
    ∀ {i : Nat} {cs : List (List Char)} {o : ChunkObj},
      o ∈ chunkObjsAux source i cs → o.content ∈ cs := by
  intro i cs
  induction cs generalizing i with
  | nil => intro o h; simp [chunkObjsAux] at h
  | cons c rest ih =>
    intro o h
    rw [chunkObjsAux] at h
    rcases List.mem_cons.mp h with h | h
    · subst h; exact List.mem_cons_self ..
    · exact List.mem_cons_of_mem _ (ih h)

theorem length_joinSpace_cons_le {w : List Char} {acc : List (List Char)} {cc : Nat}
    (h : (joinSpace acc).length ≤ cc) :
    (joinSpace (w :: acc)).length ≤ cc + w.length + 1 := by
  cases acc with
  | nil => simp [joinSpace]; omega
  | cons x xs =>
    have : joinSpace (w :: x :: xs) = w ++ ' ' :: joinSpace (x :: xs) := rfl
    rw [this]
    simp only [List.length_append, List.length_cons]
    omega

theorem length_joinSpace_overlapWordsAux_le (osz : Nat) :
    ∀ (ws acc : List (List Char)) (cc : Nat),
      (joinSpace acc).length ≤ cc → cc ≤ osz →
      (joinSpace (overlapWordsAux ws acc cc osz)).length ≤ osz := by
  intro ws
  induction ws with
  | nil => intro acc cc h hcc; rw [overlapWordsAux]; omega
  | cons w rest ih =>
    intro acc cc h hcc
    rw [overlapWordsAux]
    by_cases hfit : cc + w.length + 1 ≤ osz
    · rw [if_pos hfit]
      exact ih (w :: acc) (cc + w.length + 1) (length_joinSpace_cons_le h) hfit
    · rw [if_neg hfit]; omega

theorem length_get_overlap_text_le (t : List Char) (osz : Nat) :
    (get_overlap_text t osz).length ≤ osz := by
  unfold get_overlap_text
  by_cases h : t.length ≤ osz
  · rw [if_pos h]; exact h
  · rw [if_neg h]
    exact length_joinSpace_overlapWordsAux_le osz ((splitWs t).reverse) [] 0
      (by simp [joinSpace]) (Nat.zero_le _)

theorem createChunksAux_length_le (sz ov : Nat) :
    ∀ (ss chunks : List (List Char)) (current : List Char),
      (∀ s ∈ ss, s.length ≤ sz) →
      (∀ c ∈ chunks, c.length ≤ sz + ov + 1) →
      current.length ≤ sz + ov + 1 →
      ∀ c ∈ createChunksAux sz ov ss chunks current, c.length ≤ sz + ov + 1 := by
  intro ss
  induction ss with
  | nil =>
    intro chunks current _ hc hcur c hmem
    rw [createChunksAux] at hmem
    by_cases hne : current ≠ []
    · rw [if_pos hne] at hmem
      rcases List.mem_append.mp hmem with h | h
      · exact hc c h
      · have : c = TextUtil.stripChars current := by simpa using h
        subst this
        exact le_trans (TextUtil.length_stripChars_le current) hcur
    · rw [if_neg hne] at hmem
      exact hc c hmem
  | cons s rest ih =>
    intro chunks current hs hc hcur c hmem
    have hslen : s.length ≤ sz := hs s (List.mem_cons_self ..)
    have hrest : ∀ x ∈ rest, x.length ≤ sz := fun x hx => hs x (List.mem_cons_of_mem _ hx)
    rw [createChunksAux] at hmem
    set potential := if current = [] then s else current ++ ' ' :: s with hpot
    by_cases hfit : potential.length ≤ sz
    · rw [if_pos hfit] at hmem
      exact ih chunks potential hrest hc (by omega) c hmem
    · rw [if_neg hfit] at hmem
      have hc2 : ∀ x ∈ (if current ≠ [] then chunks ++ [TextUtil.stripChars current] else chunks),
          x.length ≤ sz + ov + 1 := by
        intro x hx
        by_cases hne : current ≠ []
        · rw [if_pos hne] at hx
          rcases List.mem_append.mp hx with h | h
          · exact hc x h
          · have hx2 : x = TextUtil.stripChars current := by simpa using h
            subst hx2
            exact le_trans (TextUtil.length_stripChars_le current) hcur
        · rw [if_neg hne] at hx
          exact hc x hx
      have hmem2 : c ∈ createChunksAux sz ov rest
          (if current ≠ [] then chunks ++ [TextUtil.stripChars current] else chunks)
          (if (if current ≠ [] then chunks ++ [TextUtil.stripChars current] else chunks) ≠ []
              ∧ 0 < ov then
            get_overlap_text current ov ++ ' ' :: s
          else s) := hmem
      by_cases hseed :
          (if current ≠ [] then chunks ++ [TextUtil.stripChars current] else chunks) ≠ [] ∧ 0 < ov
      · rw [if_pos hseed] at hmem2
        have hover := length_get_overlap_text_le current ov
        have hlen : (get_overlap_text current ov ++ ' ' :: s).length ≤ sz + ov + 1 := by
          simp only [List.length_append, List.length_cons]
          omega
        exact ih _ _ hrest hc2 hlen c hmem2
      · rw [if_neg hseed] at hmem2
        exact ih _ s hrest hc2 (by omega) c hmem2

theorem chunk_text_length_le (sz ov : Nat) (text source : List Char)
    (hs : ∀ s ∈ split_into_sentences (clean_text text), s.length ≤ sz) :
    ∀ o ∈ chunk_text sz ov text source, o.content.length ≤ sz + ov + 1 := by
  intro o hmem
  have hc := content_mem_of_mem_chunkObjsAux hmem
  exact createChunksAux_length_le sz ov _ [] [] hs (by simp) (by simp) _ hc

end Chunking

namespace VectorStore

theorem length_insertByDist (q : List ℚ) (e : StoreEntry) :
    ∀ l : List StoreEntry, (insertByDist q e l).length = l.length + 1 := by
  intro l
  induction l with
  | nil => rfl
  | cons x xs ih =>
    rw [insertByDist]
    by_cases h : sqDist q e.embedding ≤ sqDist q x.embedding
    · rw [if_pos h]; rfl
    · rw [if_neg h]
      simp [ih]

theorem length_sortByDist (q : List ℚ) :
    ∀ l : List StoreEntry, (sortByDist q l).length = l.length := by
  intro l
  induction l with
  | nil => rfl
  | cons e es ih =>
    rw [sortByDist, length_insertByDist, ih]
    rfl

theorem mem_insertByDist {q : List ℚ} {e x : StoreEntry} :
    ∀ {l : List StoreEntry}, x ∈ insertByDist q e l → x = e ∨ x ∈ l := by
  intro l
  induction l with
  | nil => intro h; simpa [insertByDist] using h
  | cons y ys ih =>
    intro h
    rw [insertByDist] at h
    by_cases hc : sqDist q e.embedding ≤ sqDist q y.embedding
    · rw [if_pos hc] at h
      rcases List.mem_cons.mp h with h | h
      · exact Or.inl h
      · exact Or.inr h
    · rw [if_neg hc] at h
      rcases List.mem_cons.mp h with h | h
      · exact Or.inr (h ▸ List.mem_cons_self ..)
      · rcases ih h with h | h
        · exact Or.inl h
        · exact Or.inr (List.mem_cons_of_mem _ h)

theorem sorted_insertByDist (q : List ℚ) (e : StoreEntry) :
    ∀ {l : List StoreEntry},
      List.Sorted (· ≤ ·) (l.map (fun x => sqDist q x.embedding)) →
      List.Sorted (· ≤ ·) ((insertByDist q e l).map (fun x => sqDist q x.embedding)) := by
  intro l
  induction l with
  | nil =>
    intro _
    simp [insertByDist]
  | cons y ys ih =>
    intro hsort
    rw [List.map_cons, List.sorted_cons] at hsort
    obtain ⟨hy, hys⟩ := hsort
    rw [insertByDist]
    by_cases hc : sqDist q e.embedding ≤ sqDist q y.embedding
    · rw [if_pos hc]
      simp only [List.map_cons, List.sorted_cons]
      refine ⟨?_, ?_, hys⟩
      · intro b hb
        simp only [List.mem_cons, List.mem_map] at hb
        rcases hb with rfl | ⟨x, hx, rfl⟩
        · exact hc
        · exact le_trans hc (hy _ (List.mem_map_of_mem _ hx))
      · exact hy
    · rw [if_neg hc]
      simp only [List.map_cons, List.sorted_cons]
      refine ⟨?_, ih hys⟩
      intro b hb
      simp only [List.mem_map] at hb
      obtain ⟨x, hx, rfl⟩ := hb
      rcases mem_insertByDist hx with rfl | hx2
      · exact le_of_not_le hc
      · exact hy _ (List.mem_map_of_mem _ hx2)

theorem sorted_sortByDist (q : List ℚ) :
    ∀ l : List StoreEntry,
      List.Sorted (· ≤ ·) ((sortByDist q l).map (fun x => sqDist q x.embedding)) := by
  intro l
  induction l with
  | nil => simp [sortByDist]
  | cons e es ih => exact sorted_insertByDist q e ih

end VectorStore

/-- Claim C1, counterexample: the claim states that a failed embedding
fails the whole retrieve call, which never returns a successful result
with an empty passage list in place of the error.  The microservice
retrieve_context violates this: with a non-greeting, non-inappropriate
analysis and a failing embedding it returns a normal (Except.ok)
response — with an empty chunk list — instead of failing. -/
theorem claim1_counterexample :
    ¬ (∀ (req : Scalable.RetrievalRequest) (analysis : Scalable.QueryAnalysis)
         (e : List Char) (searchOutcome : Except (List Char) (List Scalable.WeaviateItem)),
         analysis.is_greeting = false → analysis.is_inappropriate = false →
         ∀ resp, (Scalable.retrieve_context req analysis (Except.error e) searchOutcome).1
           ≠ Except.ok resp) := by
  intro h
  exact h { query := ("q").toList, creator_id := "c1" }
      { intent := Scalable.QueryIntent.question, complexity := Scalable.QueryComplexity.simple
        is_greeting := false, is_inappropriate := false, is_step_by_step := false
        confidence := 1 / 2 }
      (("boom").toList) (Except.ok []) rfl rfl
      { chunks := [], total_chunks := 0, creator_id := "c1", retrieval_strategy := "error" }
      (by decide)

/-- Claim C1, amended: when the embedding call fails, the
single-process retrieve propagates the failure as a raised error with a
translated message, while the microservice retrieve catches it and
returns a normal response with an empty chunk list and strategy error
instead of propagating (the store search is never reached in either
path). -/
theorem claim1_amended_propagation :
    (∀ (query : List Char) (creator_id : String) (e : List Char)
       (searchOutcome : Except (List Char) VectorStore.SearchResult),
       SimpleRetrieval.retrieve_context query creator_id (Except.error e) searchOutcome =
         Except.error (SimpleRetrieval.translate_error e)) ∧
    (∀ (req : Scalable.RetrievalRequest) (analysis : Scalable.QueryAnalysis)
       (e : List Char) (searchOutcome : Except (List Char) (List Scalable.WeaviateItem)),
       analysis.is_greeting = false → analysis.is_inappropriate = false →
       Scalable.retrieve_context req analysis (Except.error e) searchOutcome =
         (Except.ok { chunks := [], total_chunks := 0, creator_id := req.creator_id
                      retrieval_strategy := "error" }, [Scalable.RetEvent.embedCall])) := by
  constructor
  · intro query cid e s
    rfl
  · intro req an e s h1 h2
    unfold Scalable.retrieve_context Scalable.retrieve_body
    simp [h1, h2]

/-- Claim C1, witness of the amended theorem at concrete failing
embeddings. -/
theorem claim1_witness :
    SimpleRetrieval.retrieve_context (("q").toList) "hawa_singh"
        (Except.error (("embedding failed").toList))
        (Except.ok { documents := [], metadatas := [], distances := [] }) =
      Except.error (SimpleRetrieval.translate_error (("embedding failed").toList)) ∧
    Scalable.retrieve_context { query := ("q").toList, creator_id := "c1" }
        { intent := Scalable.QueryIntent.question, complexity := Scalable.QueryComplexity.simple
          is_greeting := false, is_inappropriate := false, is_step_by_step := false
          confidence := 1 / 2 }
        (Except.error (("boom").toList)) (Except.ok []) =
      (Except.ok { chunks := [], total_chunks := 0, creator_id := "c1"
                   retrieval_strategy := "error" }, [Scalable.RetEvent.embedCall]) :=
  ⟨claim1_amended_propagation.1 _ _ _ _, claim1_amended_propagation.2 _ _ _ _ rfl rfl⟩

/-- Claim C2: a query whose analysis has is_greeting or
is_inappropriate set is answered immediately with strategy skip and an
empty chunk list, and neither an embedding call nor a store search is
performed (the emitted event list is empty). -/
theorem claim2_skip_short_circuit (req : Scalable.RetrievalRequest)
    (analysis : Scalable.QueryAnalysis)
    (embedOutcome : Except (List Char) (List ℚ))
    (searchOutcome : Except (List Char) (List Scalable.WeaviateItem))
    (h : analysis.is_greeting = true ∨ analysis.is_inappropriate = true) :
    Scalable.retrieve_context req analysis embedOutcome searchOutcome =
      (Except.ok { chunks := [], total_chunks := 0, creator_id := req.creator_id
                   retrieval_strategy := "skip" }, []) := by
  unfold Scalable.retrieve_context Scalable.retrieve_body
  rcases h with h | h <;> simp [h]

/-- Claim C2, witness at the query hi (classified by the fallback
analyzer). -/
theorem claim2_witness :
    Scalable.retrieve_context { query := ("hi").toList, creator_id := "hawa_singh" }
      (Scalable.fallback_analysis (("hi").toList)) (Except.ok []) (Except.ok []) =
      (Except.ok { chunks := [], total_chunks := 0, creator_id := "hawa_singh"
                   retrieval_strategy := "skip" }, []) :=
  claim2_skip_short_circuit _ _ _ _ (Or.inl (by decide))

/-- Claim C3, counterexample: with maximum passage size 10 and overlap
5, the document aaa bbb. ccc ddd. x produces the passage
bbb ccc ddd of length 11 — over the maximum although every single
sentence of the document fits in it, refuting the claimed invariant
that an over-long passage can only be a single oversized sentence. -/
theorem claim3_counterexample :
    ¬ (∀ o ∈ Chunking.chunk_text 10 5 (("aaa bbb. ccc ddd. x").toList) (("t").toList),
        o.content.length ≤ 10 ∨
          (10 < o.content.length ∧
           o.content ∈ Chunking.split_into_sentences
             (Chunking.clean_text (("aaa bbb. ccc ddd. x").toList)))) := by
  decide

/-- Claim C3, amended: when every sentence of the cleaned document fits
in the configured maximum passage size, every produced passage's text
length is at most maximum + overlap + 1 — the overlap seed prepended
after a close can push a passage past the configured maximum by up to
overlap + 1 characters. -/
theorem claim3_amended_bound (sz ov : Nat) (text source : List Char)
    (hs : ∀ s ∈ Chunking.split_into_sentences (Chunking.clean_text text), s.length ≤ sz) :
    ∀ o ∈ Chunking.chunk_text sz ov text source, o.content.length ≤ sz + ov + 1 :=
  Chunking.chunk_text_length_le sz ov text source hs

/-- Claim C3, witness of the amended bound on a concrete document. -/
theorem claim3_witness :
    (∀ s ∈ Chunking.split_into_sentences (Chunking.clean_text (("ab. cd").toList)),
       s.length ≤ 10) ∧
    (∀ o ∈ Chunking.chunk_text 10 5 (("ab. cd").toList) (("t").toList),
       o.content.length ≤ 10 + 5 + 1) :=
  ⟨by decide, claim3_amended_bound 10 5 _ _ (by decide)⟩

/-- Claim C4, counterexample: the claim states that only comprehensive,
focused and balanced are ever selected, but an analysis with simple
complexity, non-how-to intent and a true is_step_by_step flag selects
the fourth label structured. -/
theorem claim4_counterexample :
    ¬ (∀ (analysis : Scalable.QueryAnalysis) (req : Scalable.RetrievalRequest),
        Scalable.determine_strategy analysis req = "comprehensive" ∨
        Scalable.determine_strategy analysis req = "focused" ∨
        Scalable.determine_strategy analysis req = "balanced") := by
  intro h
  rcases h { intent := Scalable.QueryIntent.question
             complexity := Scalable.QueryComplexity.simple
             is_greeting := false, is_inappropriate := false, is_step_by_step := true
             confidence := 1 / 2 }
           { query := [], creator_id := "c" } with h | h | h <;> exact absurd h (by decide)

/-- Claim C4, amended: strategy selection is the deterministic mapping
COMPLEX complexity to comprehensive, else HOW_TO intent to focused,
else a true is_step_by_step flag to structured, else balanced. -/
theorem claim4_amended_strategy (analysis : Scalable.QueryAnalysis)
    (req : Scalable.RetrievalRequest) :
    (analysis.complexity = Scalable.QueryComplexity.complex →
       Scalable.determine_strategy analysis req = "comprehensive") ∧
    (analysis.complexity ≠ Scalable.QueryComplexity.complex →
     analysis.intent = Scalable.QueryIntent.how_to →
       Scalable.determine_strategy analysis req = "focused") ∧
    (analysis.complexity ≠ Scalable.QueryComplexity.complex →
     analysis.intent ≠ Scalable.QueryIntent.how_to → analysis.is_step_by_step = true →
       Scalable.determine_strategy analysis req = "structured") ∧
    (analysis.complexity ≠ Scalable.QueryComplexity.complex →
     analysis.intent ≠ Scalable.QueryIntent.how_to → analysis.is_step_by_step = false →
       Scalable.determine_strategy analysis req = "balanced") := by
  refine ⟨?_, ?_, ?_, ?_⟩ <;> intros <;> simp [Scalable.determine_strategy, *]

/-- Claim C4, witness of the amended mapping at a concrete analysis
selecting structured. -/
theorem claim4_witness :
    Scalable.determine_strategy
      { intent := Scalable.QueryIntent.question, complexity := Scalable.QueryComplexity.simple
        is_greeting := false, is_inappropriate := false, is_step_by_step := true
        confidence := 1 / 2 }
      { query := [], creator_id := "c" } = "structured" :=
  (claim4_amended_strategy _ _).2.2.1 (by decide) (by decide) rfl

/-- Claim C5, counterexample: the claim states that every query not
labelled COMPLEX is labelled SIMPLE, but the query hello? (one
question mark) is labelled with the third label MEDIUM. -/
theorem claim5_counterexample :
    ¬ (∀ q : List Char,
        SrcQA.determine_complexity q = SrcQA.QueryComplexity.complex ∨
        SrcQA.determine_complexity q = SrcQA.QueryComplexity.simple) := by
  intro h
  exact absurd (h (("hello?").toList)) (by decide)

/-- Claim C5, amended: the classifier labels COMPLEX exactly when the
query has more than one question mark, more than one conjunction, more
than one comma or semicolon, or more than 20 words; otherwise MEDIUM
exactly when it has exactly one question mark, exactly one conjunction,
exactly one comma or semicolon, or more than 10 words; otherwise
SIMPLE.  The microservice fallback analyzer instead labels COMPLEX
exactly when the query exceeds 10 words (and SIMPLE otherwise). -/
theorem claim5_amended_complexity (q : List Char) :
    (SrcQA.determine_complexity q = SrcQA.QueryComplexity.complex ↔
      (1 < SrcQA.question_count q ∨ 1 < SrcQA.and_count q ∨
       1 < SrcQA.concept_count q ∨ 20 < SrcQA.word_count q)) ∧
    (SrcQA.determine_complexity q = SrcQA.QueryComplexity.medium ↔
      (¬ (1 < SrcQA.question_count q ∨ 1 < SrcQA.and_count q ∨
          1 < SrcQA.concept_count q ∨ 20 < SrcQA.word_count q) ∧
       (SrcQA.question_count q = 1 ∨ SrcQA.and_count q = 1 ∨
        SrcQA.concept_count q = 1 ∨ 10 < SrcQA.word_count q))) ∧
    (SrcQA.determine_complexity q = SrcQA.QueryComplexity.simple ↔
      (¬ (1 < SrcQA.question_count q ∨ 1 < SrcQA.and_count q ∨
          1 < SrcQA.concept_count q ∨ 20 < SrcQA.word_count q) ∧
       ¬ (SrcQA.question_count q = 1 ∨ SrcQA.and_count q = 1 ∨
          SrcQA.concept_count q = 1 ∨ 10 < SrcQA.word_count q))) ∧
    ((Scalable.fallback_analysis q).complexity = Scalable.QueryComplexity.complex ↔
      10 < SrcQA.word_count q) := by
  refine ⟨?_, ?_, ?_, ?_⟩
  · unfold SrcQA.determine_complexity
    split
    · simp [*]
    · split <;> simp [*]
  · unfold SrcQA.determine_complexity
    split
    · simp [*]
    · split <;> simp [*]
  · unfold SrcQA.determine_complexity
    split
    · simp [*]
    · split <;> simp [*]
  · simp only [Scalable.fallback_analysis, SrcQA.word_count, TextUtil.splitWs]
    split <;> simp [*]

/-- Claim C6, counterexample: the claim states that a query containing
a greeting token merely as a substring of other content is not
classified as a greeting, but the fallback analyzer flags
which camera is best as a greeting because hi occurs inside which. -/
theorem claim6_counterexample :
    ¬ (∀ q : List Char, (Scalable.fallback_analysis q).is_greeting = true →
        TextUtil.stripChars (TextUtil.lowerStr q) ∈ Scalable.greetingTokens) := by
  intro h
  exact absurd (h (("which camera is best").toList) (by decide)) (by decide)

/-- Claim C6, amended: the fallback analyzer sets is_greeting exactly
when some token of the greeting allow-list occurs as a substring
anywhere in the lowercased query — also inside unrelated words. -/
theorem claim6_amended_greeting (query : List Char) :
    (Scalable.fallback_analysis query).is_greeting = true ↔
      ∃ g ∈ Scalable.greetingTokens, ∃ u v, TextUtil.lowerStr query = u ++ g ++ v := by
  simp only [Scalable.fallback_analysis]
  rw [List.any_eq_true]
  constructor
  · rintro ⟨g, hg, hc⟩
    exact ⟨g, hg, (TextUtil.containsSub_iff _ _).mp hc⟩
  · rintro ⟨g, hg, h⟩
    exact ⟨g, hg, (TextUtil.containsSub_iff _ _).mpr h⟩

/-- Claim C7: for non-blank text, a provider success returns at once; a
non-rate-limit provider error propagates immediately with a single
call and no sleep; rate-limit errors are retried up to 3 attempts in
total with sleeps of 2 then 4 time units (exponential backoff starting
at 2, doubling per retry), and the third outcome — success or error —
is final. -/
theorem claim7_retry_policy (text : List Char)
    (oracle : Nat → Except (List Char) (List ℚ))
    (htext : TextUtil.stripChars text ≠ []) :
    (∀ v, oracle 0 = Except.ok v →
       Embeddings.embed_text text oracle =
         { result := some (Except.ok v), sleeps := [], calls := 1 }) ∧
    (∀ e, oracle 0 = Except.error e → Embeddings.isRateLimit e = false →
       Embeddings.embed_text text oracle =
         { result := some (Except.error e), sleeps := [], calls := 1 }) ∧
    (∀ e0 v, oracle 0 = Except.error e0 → Embeddings.isRateLimit e0 = true →
       oracle 1 = Except.ok v →
       Embeddings.embed_text text oracle =
         { result := some (Except.ok v), sleeps := [2], calls := 2 }) ∧
    (∀ e0 e1, oracle 0 = Except.error e0 → Embeddings.isRateLimit e0 = true →
       oracle 1 = Except.error e1 → Embeddings.isRateLimit e1 = false →
       Embeddings.embed_text text oracle =
         { result := some (Except.error e1), sleeps := [2], calls := 2 }) ∧
    (∀ e0 e1 v, oracle 0 = Except.error e0 → Embeddings.isRateLimit e0 = true →
       oracle 1 = Except.error e1 → Embeddings.isRateLimit e1 = true →
       oracle 2 = Except.ok v →
       Embeddings.embed_text text oracle =
         { result := some (Except.ok v), sleeps := [2, 4], calls := 3 }) ∧
    (∀ e0 e1 e2, oracle 0 = Except.error e0 → Embeddings.isRateLimit e0 = true →
       oracle 1 = Except.error e1 → Embeddings.isRateLimit e1 = true →
       oracle 2 = Except.error e2 →
       Embeddings.embed_text text oracle =
         { result := some (Except.error e2), sleeps := [2, 4], calls := 3 }) := by
  refine ⟨?_, ?_, ?_, ?_, ?_, ?_⟩ <;>
    intros <;>
    simp_all [Embeddings.embed_text, htext, Embeddings.embedGo]

/-- Claim C7, witness: a provider that always rate-limits makes exactly
3 calls with sleeps 2 and 4 and then fails. -/
theorem claim7_witness :
    Embeddings.embed_text (("hello").toList) (fun _ => Except.error (("rate 429").toList)) =
      { result := some (Except.error (("rate 429").toList)), sleeps := [2, 4], calls := 3 } :=
  (claim7_retry_policy _ _ (by decide)).2.2.2.2.2 _ _ _ rfl (by decide) rfl (by decide) rfl

/-- Claim C8: empty or whitespace-only text fails with the validation
error before any provider call — zero provider calls are made. -/
theorem claim8_empty_validation (text : List Char)
    (oracle : Nat → Except (List Char) (List ℚ))
    (h : TextUtil.stripChars text = []) :
    Embeddings.embed_text text oracle =
      { result := some (Except.error Embeddings.emptyTextError), sleeps := [], calls := 0 } := by
  simp [Embeddings.embed_text, h]

/-- Claim C8, witness at the empty and the all-blank string. -/
theorem claim8_witness :
    Embeddings.embed_text [] (fun _ => Except.ok []) =
      { result := some (Except.error Embeddings.emptyTextError), sleeps := [], calls := 0 } ∧
    Embeddings.embed_text (("   ").toList) (fun _ => Except.ok []) =
      { result := some (Except.error Embeddings.emptyTextError), sleeps := [], calls := 0 } :=
  ⟨claim8_empty_validation _ _ (by decide), claim8_empty_validation _ _ (by decide)⟩

/-- Claim C9: searching an unknown creator returns the empty result
(the function is total, so no error is ever raised); when the creator's
collection has fewer than n entries the search returns exactly that
many documents (fewer than n); and the returned distances are in
ascending order (closest first). -/
theorem claim9_search (store : VectorStore.CreatorVectorStore) (creator_id : String)
    (q : List ℚ) (n : Nat) :
    (VectorStore.lookupCollection store creator_id = none →
       VectorStore.search_creator store creator_id q n =
         { documents := [], metadatas := [], distances := [] }) ∧
    (∀ entries, VectorStore.lookupCollection store creator_id = some entries →
       entries.length < n →
       ((VectorStore.search_creator store creator_id q n).documents.headD []).length =
         entries.length) ∧
    (∀ entries, VectorStore.lookupCollection store creator_id = some entries →
       List.Sorted (· ≤ ·)
         ((VectorStore.search_creator store creator_id q n).distances.headD [])) := by
  refine ⟨?_, ?_, ?_⟩
  · intro h
    unfold VectorStore.search_creator
    rw [h]
  · intro entries h hlt
    unfold VectorStore.search_creator
    rw [h]
    unfold VectorStore.backendQuery
    simp [VectorStore.length_sortByDist]
    omega
  · intro entries h
    unfold VectorStore.search_creator
    rw [h]
    unfold VectorStore.backendQuery
    simp only [List.headD_cons]
    rw [List.map_take]
    exact List.Pairwise.sublist (List.take_sublist _ _)
      (VectorStore.sorted_sortByDist q entries)

/-- Claim C9, witness on the two-entry sample store: unknown creator
yields the empty result, a two-entry collection yields two documents
for n = 3, and the distances come back sorted. -/
theorem claim9_witness :
    (VectorStore.search_creator sampleStore "unknown_creator" [1, 0] 3 =
      { documents := [], metadatas := [], distances := [] }) ∧
    ((VectorStore.search_creator sampleStore "hawa_singh" [1, 0] 3).documents.headD
        []).length = sampleEntries.length ∧
    List.Sorted (· ≤ ·)
      ((VectorStore.search_creator sampleStore "hawa_singh" [1, 0] 3).distances.headD []) := by
  refine ⟨(claim9_search sampleStore "unknown_creator" [1, 0] 3).1 (by decide),
    (claim9_search sampleStore "hawa_singh" [1, 0] 3).2.1 sampleEntries (by decide) (by decide),
    (claim9_search sampleStore "hawa_singh" [1, 0] 3).2.2 sampleEntries (by decide)⟩

/-- Claim C10: every chunk kept by _execute_retrieval has similarity at
least the threshold; exactly the items whose certainty reaches the
threshold survive (below-threshold results are silently dropped); the
query passed to the backend carries the same threshold as its certainty
bound, and the request's declared default threshold is 7/10; and a
retrieve over a non-empty result set can return zero chunks with a
normal strategy and no error. -/
theorem claim10_threshold_filter :
    (∀ (creator_id : String) (items : List Scalable.WeaviateItem) (thr : ℚ),
       ∀ c ∈ Scalable.execute_retrieval creator_id (Except.ok items) thr,
         thr ≤ c.similarity) ∧
    (∀ (creator_id : String) (items : List Scalable.WeaviateItem) (thr : ℚ),
       (Scalable.execute_retrieval creator_id (Except.ok items) thr).length =
         (items.filter (fun item => decide (thr ≤ item.certainty.getD 0))).length) ∧
    (∀ (emb : List ℚ) (creator_id : String) (k : Nat) (thr : ℚ),
       (Scalable.build_query emb creator_id k thr).certainty = thr) ∧
    (({ query := [], creator_id := "x" } : Scalable.RetrievalRequest).similarity_threshold =
       7 / 10) ∧
    (∃ (req : Scalable.RetrievalRequest) (analysis : Scalable.QueryAnalysis)
       (emb : List ℚ) (items : List Scalable.WeaviateItem),
       items ≠ [] ∧
       Scalable.retrieve_context req analysis (Except.ok emb) (Except.ok items) =
         (Except.ok { chunks := [], total_chunks := 0, creator_id := req.creator_id
                      retrieval_strategy := "balanced" },
          [Scalable.RetEvent.embedCall, Scalable.RetEvent.searchCall])) := by
  refine ⟨?_, ?_, ?_, rfl, ?_⟩
  · intro cid items thr c hc
    unfold Scalable.execute_retrieval at hc
    rcases List.mem_filterMap.mp hc with ⟨item, _, hsome⟩
    by_cases hle : thr ≤ item.certainty.getD 0
    · simp only [hle, if_pos] at hsome
      cases hsome
      exact hle
    · simp [hle] at hsome
  · intro cid items thr
    induction items with
    | nil => rfl
    | cons item rest ih =>
      simp only [Scalable.execute_retrieval] at ih ⊢
      by_cases hle : thr ≤ item.certainty.getD 0
      · simp [List.filterMap_cons, List.filter_cons, hle, ih]
      · simp [List.filterMap_cons, List.filter_cons, hle, ih]
  · intro emb cid k thr
    rfl
  · refine ⟨{ query := ("q").toList, creator_id := "c1", similarity_threshold := 1 },
      { intent := Scalable.QueryIntent.question, complexity := Scalable.QueryComplexity.simple
        is_greeting := false, is_inappropriate := false, is_step_by_step := false
        confidence := 0 },
      [],
      [{ content := some (("below threshold doc").toList), source := some (("s").toList)
         certainty := some 0, metadata := none }],
      by decide, by decide⟩

/-- Claim C10, witness: with threshold 1, an item of certainty 2 is
kept with similarity at least the threshold while an item of certainty
0 is dropped, matching the per-result filter count. -/
theorem claim10_witness :
    (1 : ℚ) ≤
      (Scalable.ContextChunk.mk (("kept doc").toList) (("s").toList) 2 "c1" []).similarity ∧
    (Scalable.execute_retrieval "c1"
        (Except.ok
          [{ content := some (("kept doc").toList), source := some (("s").toList)
             certainty := some 2, metadata := none },
           { content := some (("dropped doc").toList), source := some (("s").toList)
             certainty := some 0, metadata := none }])
        (1 : ℚ)).length =
      ([({ content := some (("kept doc").toList), source := some (("s").toList)
           certainty := some 2, metadata := none } : Scalable.WeaviateItem),
        { content := some (("dropped doc").toList), source := some (("s").toList)
          certainty := some 0, metadata := none }].filter
        (fun item => decide ((1 : ℚ) ≤ item.certainty.getD 0))).length := by
  constructor
  · exact claim10_threshold_filter.1 "c1"
      [{ content := some (("kept doc").toList), source := some (("s").toList)
         certainty := some 2, metadata := none },
       { content := some (("dropped doc").toList), source := some (("s").toList)
         certainty := some 0, metadata := none }]
      (1 : ℚ) _ (by decide)
  · exact claim10_threshold_filter.2.1 "c1" _ _
